import Mathlib

/-!
# Verification of the `aura-cursor` engine (`src/aura-cursor.ts`)

A shallow embedding of the cursor engine class `AuraCursor`.  Conventions:

* JS numbers are modeled as exact rationals (`ℚ`): the engine only adds,
  subtracts, multiplies, halves, takes `min` and compares positions and
  speeds, so `ℚ` reproduces the arithmetic of the source exactly.
  The one use of `Math.sqrt` is the comparison `distance > 50` in `animate`;
  since both sides are nonnegative it is embedded as the exactly equivalent
  squared comparison `d² > 50²` (see `Aura.sqrt_gt_fifty_iff` below for the
  bridge back to the real Euclidean distance).
* DOM elements created by the engine carry one of its three marker classes
  (`aura-cursor`, `aura-cursor-dot`, `aura-cursor-center-dot`); the engine
  never creates or removes any other element, so `document.body` is modeled
  as the list of marker-classed elements only, each a pair of a numeric
  identity and its marker class.  Style writes (`applyStyles`,
  `updateCursorPosition`, `hideCursor`, …) mutate only CSS properties of
  already-existing elements; they change neither the element tree nor any
  engine field, so they are identities in this structural model.
* `requestAnimationFrame` registrations are modeled by a list of pending
  frame identities plus the stored `animationFrameId`.
-/

namespace Aura

/-- Hover-effect option bundle (`AuraCursorHoverEffectOptions` in the source):
optional color, opacity and scale overrides applied while hovering. -/
structure HoverEffectOptions where
  color : Option String := none
  opacity : Option ℚ := none
  scale : Option ℚ := none
deriving DecidableEq

/-- The public option record (`AuraCursorOptions`): every field optional.
`updateOptions` receives the same shape (`Partial<AuraCursorOptions>` is the
identical type since all fields are already optional). -/
structure AuraCursorOptions where
  size : Option ℚ := none
  color : Option String := none
  opacity : Option ℚ := none
  speed : Option ℚ := none
  hideDefaultCursor : Option Bool := none
  className : Option String := none
  interactiveOnly : Option Bool := none
  hoverEffect : Option HoverEffectOptions := none
  outlineMode : Option Bool := none
  outlineWidth : Option ℚ := none
  centerDotColor : Option String := none
  hoverColor : Option String := none
  centerDotSize : Option ℚ := none
  centerDotHoverColor : Option String := none
deriving DecidableEq

/-- The resolved option record stored by the engine (`this.baseOptions`, and
the non-`hoverEffect` part of `this.options`).  `centerDotColor`,
`hoverColor` and `centerDotHoverColor` remain optional in the source type;
`centerDotSize` is always assigned a number by the constructor
(`options.centerDotSize ?? 3`), so it is a plain number here. -/
structure BaseOptions where
  size : ℚ
  color : String
  opacity : ℚ
  speed : ℚ
  hideDefaultCursor : Bool
  className : String
  interactiveOnly : Bool
  outlineMode : Bool
  outlineWidth : ℚ
  centerDotColor : Option String
  hoverColor : Option String
  centerDotSize : ℚ
  centerDotHoverColor : Option String
deriving DecidableEq

/-- The constructor's defaulting of `this.baseOptions` (lines 134-148 of the
source): each absent field falls back to its documented default. -/
def mkBaseOptions (o : AuraCursorOptions) : BaseOptions where
  size := o.size.getD 20
  color := o.color.getD "#000000"
  opacity := o.opacity.getD 0.5
  speed := o.speed.getD 0.3
  hideDefaultCursor := o.hideDefaultCursor.getD false
  className := o.className.getD ""
  interactiveOnly := o.interactiveOnly.getD false
  outlineMode := o.outlineMode.getD false
  outlineWidth := o.outlineWidth.getD 2
  centerDotColor := o.centerDotColor
  hoverColor := o.hoverColor
  centerDotSize := o.centerDotSize.getD 3
  centerDotHoverColor := o.centerDotHoverColor

/-- The scale factor computed by `applyStyles` (lines 431-433):
`this.isPointer && this.options.hoverEffect?.scale ? this.options.hoverEffect.scale : 1`.
JS truthiness: the condition is falsy when `isPointer` is false, when no
hover effect is configured, when its `scale` is absent, or when the scale is
the (falsy) number 0. -/
def hoverScale (isPointer : Bool) (hoverEffect : Option HoverEffectOptions) : ℚ :=
  if isPointer then
    match hoverEffect with
    | some he =>
      match he.scale with
      | some sc => if sc = 0 then 1 else sc
      | none => 1
    | none => 1
  else 1

/-- Marker classes of the DOM elements the engine creates. -/
inductive LayerClass where
  | auraCursor
  | auraCursorDot
  | auraCursorCenterDot
deriving DecidableEq

/-- The host document, restricted to what the engine touches: the
marker-classed elements in `document.body` (identity × class, in insertion
order), the global cursor-suppression `<style>` element in `document.head`
(if installed), the pending `requestAnimationFrame` registrations, the
`__auraCursorLastMouseEvent` global stored on `document`, and a fresh-name
supply for newly created element/frame identities. -/
structure Dom where
  body : List (ℕ × LayerClass)
  headStyle : Option ℕ
  pendingFrames : List ℕ
  lastMouse : Option (ℚ × ℚ)
  nextId : ℕ
deriving DecidableEq

/-- Host facts read by the engine: presence of a window, touch capability
(`'ontouchstart' in window || navigator.maxTouchPoints > 0`), viewport size
and whether the user-agent string matches the mobile pattern. -/
structure Env where
  hasWindow : Bool
  hasTouch : Bool
  innerWidth : ℚ
  innerHeight : ℚ
  mobileUserAgent : Bool
deriving DecidableEq

/-- Source `isMobileDevice` (lines 158-168). -/
def isMobileDevice (env : Env) : Bool :=
  if ¬ env.hasWindow then false
  else env.hasTouch || (decide (env.innerWidth ≤ 768) && env.mobileUserAgent)

/-- The instance fields of the `AuraCursor` class.  `optionsBase` is the
non-`hoverEffect` part of `this.options`; the source keeps `this.options`
and `this.baseOptions` as two records that coincide outside `updateOptions`
but diverge transiently inside it, so both are modeled.  Event handlers are
bound closures stored in fields; only their attached/detached status is
observable, modeled by the two boolean flags. -/
structure AuraState where
  cursorElement : Option ℕ
  cursorDot : Option ℕ
  centerDot : Option ℕ
  styleElement : Option ℕ
  currentX : ℚ
  currentY : ℚ
  targetX : ℚ
  targetY : ℚ
  centerDotX : ℚ
  centerDotY : ℚ
  outlineCircleX : ℚ
  outlineCircleY : ℚ
  animationFrameId : Option ℕ
  isActive : Bool
  isPointer : Bool
  isHoveringInteractive : Bool
  isOnInteractiveElement : Bool
  isMouseInWindow : Bool
  baseOptions : BaseOptions
  optionsBase : BaseOptions
  hoverEffect : Option HoverEffectOptions
  pointerElementsCache : List (ℕ × Bool)
  listenersAttached : Bool
  resizeHandler : Bool
deriving DecidableEq

/-- The constructor (lines 133-153): stores defaulted options and the field
initializers of the class declaration. -/
def mkState (o : AuraCursorOptions) : AuraState where
  cursorElement := none
  cursorDot := none
  centerDot := none
  styleElement := none
  currentX := 0
  currentY := 0
  targetX := 0
  targetY := 0
  centerDotX := 0
  centerDotY := 0
  outlineCircleX := 0
  outlineCircleY := 0
  animationFrameId := none
  isActive := false
  isPointer := false
  isHoveringInteractive := false
  isOnInteractiveElement := false
  isMouseInWindow := true
  baseOptions := mkBaseOptions o
  optionsBase := mkBaseOptions o
  hoverEffect := o.hoverEffect
  pointerElementsCache := []
  listenersAttached := false
  resizeHandler := false

/-- One tick of the animation loop `animate` (lines 592-630).  The squared
comparison `d² > 50²` embeds `Math.sqrt(d²) > 50` exactly.  The position
writes of `updateCursorPosition`, `updateCursorDotPosition` and
`updateCenterDotPosition` copy state fields into element styles and are
structural no-ops here.  The trailing `requestAnimationFrame(this.animate)`
re-arms the loop with a fresh registration. -/
def animateStep (s : AuraState) (dom : Dom) : AuraState × Dom :=
  let s :=
    if s.optionsBase.outlineMode then
      let s := { s with centerDotX := s.targetX, centerDotY := s.targetY }
      let d2 := (s.targetX - s.outlineCircleX) ^ 2 + (s.targetY - s.outlineCircleY) ^ 2
      let baseSpeed := s.optionsBase.speed * 0.5
      let adaptiveSpeed := if d2 > 50 ^ 2 then min (baseSpeed * 2) 0.8 else baseSpeed
      { s with
        outlineCircleX := s.outlineCircleX + (s.targetX - s.outlineCircleX) * adaptiveSpeed
        outlineCircleY := s.outlineCircleY + (s.targetY - s.outlineCircleY) * adaptiveSpeed }
    else
      let d2 := (s.targetX - s.currentX) ^ 2 + (s.targetY - s.currentY) ^ 2
      let adaptiveSpeed :=
        if d2 > 50 ^ 2 then min (s.optionsBase.speed * 2) 0.8 else s.optionsBase.speed
      { s with
        currentX := s.currentX + (s.targetX - s.currentX) * adaptiveSpeed
        currentY := s.currentY + (s.targetY - s.currentY) * adaptiveSpeed }
  ({ s with animationFrameId := some dom.nextId },
   { dom with pendingFrames := dom.pendingFrames ++ [dom.nextId], nextId := dom.nextId + 1 })

/-- A DOM element as seen by the interaction classifier: its identity, tag
name, `role` attribute, whether an `onclick` handler is attached as a
property (`element.onclick !== null`), whether an `onclick` attribute is
present (matched by the `[onclick]` selector), the `type` of an `<input>`,
and the computed `cursor` style the element has when the engine's global
`* { cursor: none !important; }` suppression style is NOT installed. -/
structure ElemNode where
  id : ℕ
  tag : String
  role : Option String
  onclickProp : Bool
  onclickAttr : Bool
  inputType : Option String
  origCursor : String
deriving DecidableEq

/-- An element together with its ancestor chain: `belowBody` are the proper
ancestors strictly between the element and `document.body` (innermost
first), `fromBody` is `document.body` and everything above it.  All nodes
are `HTMLElement`s (the `instanceof` guards of the source never fire for
them). -/
structure Chain where
  self : ElemNode
  belowBody : List ElemNode
  fromBody : List ElemNode
deriving DecidableEq

/-- The nodes visited by `hasPointerCursor`: the element itself and its
ancestors, stopping before `document.body`
(`while (current && current !== document.body)`). -/
def walkNodes (c : Chain) : List ElemNode :=
  c.self :: c.belowBody

/-- The nodes searched by `element.closest(...)`: the element itself and its
whole ancestor chain. -/
def allNodes (c : Chain) : List ElemNode :=
  c.self :: (c.belowBody ++ c.fromBody)

/-- Lookup in the `pointerElementsCache` `WeakMap`, modeled as an
association list with the newest entry first. -/
def cacheGet : List (ℕ × Bool) → ℕ → Option Bool
  | [], _ => none
  | (j, b) :: rest, i => if i = j then some b else cacheGet rest i

/-- What the classifier reads from the engine instance: the
`options.hideDefaultCursor` flag and whether the suppression `<style>`
element is installed in the head (`this.styleElement?.parentNode`).  While
it is installed, every element's computed cursor reads as `"none"`. -/
structure CursorCtx where
  hideDefaultCursor : Bool
  styleAttached : Bool
deriving DecidableEq

/-- The cursor value `hasPointerCursor` ends up testing for one node
(lines 653-663): the computed style, re-read with the suppression style
temporarily detached when it reads `"none"` while `hideDefaultCursor` is on
and the style element is attached. -/
def effectiveCursor (ctx : CursorCtx) (n : ElemNode) : String :=
  let cursor := if ctx.styleAttached then "none" else n.origCursor
  if cursor == "none" && ctx.hideDefaultCursor && ctx.styleAttached then n.origCursor
  else cursor

/-- The boolean `hasPointer` cached per node (line 665). -/
def effPointer (ctx : CursorCtx) (n : ElemNode) : Bool :=
  effectiveCursor ctx n == "pointer"

/-- Source `hasPointerCursor` (lines 636-676): walk the ancestor chain up to (and
excluding) `document.body`, consulting and filling the cache, returning
true as soon as one node's effective cursor is `"pointer"`.  The temporary
detach/re-attach of the style element nets out to no DOM change, so only
the cache is threaded. -/
def hasPointerCursor (ctx : CursorCtx) :
    List (ℕ × Bool) → List ElemNode → Bool × List (ℕ × Bool)
  | cache, [] => (false, cache)
  | cache, n :: rest =>
    match cacheGet cache n.id with
    | some true => (true, cache)
    | some false => hasPointerCursor ctx cache rest
    | none =>
      let hasPtr := effPointer ctx n
      let cache' := (n.id, hasPtr) :: cache
      if hasPtr then (true, cache') else hasPointerCursor ctx cache' rest

/-- Whether a node matches the interactive selector list
`a, button, [role="button"], [onclick], input[type="range"],
input[type="color"], input[type="checkbox"]` used by `element.closest`. -/
def matchesInteractiveSelector (n : ElemNode) : Bool :=
  n.tag == "A" || n.tag == "BUTTON" || n.role == some "button" || n.onclickAttr ||
    (n.tag == "INPUT" &&
      (n.inputType == some "range" || n.inputType == some "color" ||
        n.inputType == some "checkbox"))

/-- Source `isInteractiveElement` (lines 681-704): pointer-cursor walk first, then
the direct tag/attribute/handler checks on the leaf element, then the
`closest` search over the element and all its ancestors. -/
def isInteractiveElement (ctx : CursorCtx) (cache : List (ℕ × Bool)) (c : Chain) :
    Bool × List (ℕ × Bool) :=
  let r := hasPointerCursor ctx cache (walkNodes c)
  if r.1 then (true, r.2)
  else
    let isInteractiveInput := c.self.tag == "INPUT" &&
      (c.self.inputType == some "range" || c.self.inputType == some "color" ||
        c.self.inputType == some "checkbox")
    (c.self.tag == "A" || c.self.tag == "BUTTON" || c.self.role == some "button" ||
      c.self.onclickProp || isInteractiveInput ||
      (allNodes c).any matchesInteractiveSelector, r.2)

/-- A plain `<div>`: no interactive tag, role, handler or pointer styling. -/
def plainDiv : ElemNode where
  id := 1
  tag := "DIV"
  role := none
  onclickProp := false
  onclickAttr := false
  inputType := none
  origCursor := "auto"

/-- A plain `<div>` sitting directly under `document.body`. -/
def plainDivChain : Chain where
  self := plainDiv
  belowBody := []
  fromBody := [{ plainDiv with id := 0, tag := "BODY" }]

/-- The classifier context of an engine state (`this.options.hideDefaultCursor`
and `this.styleElement?.parentNode`). -/
def ctxOf (s : AuraState) (dom : Dom) : CursorCtx where
  hideDefaultCursor := s.optionsBase.hideDefaultCursor
  styleAttached :=
    match s.styleElement, dom.headStyle with
    | some i, some j => i == j
    | _, _ => false

/-- Source `hideDefaultCursor` (lines 944-952): if no suppression style element
exists yet, create one, append it to the head and reset the pointer cache. -/
def hideDefaultCursorStep (s : AuraState) (dom : Dom) : AuraState × Dom :=
  match s.styleElement with
  | some _ => (s, dom)
  | none =>
    ({ s with styleElement := some dom.nextId, pointerElementsCache := [] },
     { dom with headStyle := some dom.nextId, nextId := dom.nextId + 1 })

/-- Source `showDefaultCursor` (lines 957-963): if the suppression style element
exists and is attached, detach it, drop the handle and reset the cache. -/
def showDefaultCursorStep (s : AuraState) (dom : Dom) : AuraState × Dom :=
  match s.styleElement with
  | some i =>
    if dom.headStyle == some i then
      ({ s with styleElement := none, pointerElementsCache := [] },
       { dom with headStyle := none })
    else (s, dom)
  | none => (s, dom)

/-- Remove one element (by identity) from the body. -/
def removeElem (i : ℕ) (dom : Dom) : Dom :=
  { dom with body := dom.body.filter (fun e => !(e.1 == i)) }

/-- Whether an element is currently attached (`element.parentNode`). -/
def attached (i : ℕ) (dom : Dom) : Bool :=
  dom.body.any (fun e => e.1 == i)

/-- Remove every element bearing the given marker class
(`document.querySelectorAll('...').forEach(removeChild)`). -/
def removeAllOfClass (cls : LayerClass) (dom : Dom) : Dom :=
  { dom with body := dom.body.filter (fun e => !(e.2 == cls)) }

/-- Append a freshly created marker element to `document.body`. -/
def appendFresh (cls : LayerClass) (dom : Dom) : ℕ × Dom :=
  (dom.nextId,
   { dom with body := dom.body ++ [(dom.nextId, cls)], nextId := dom.nextId + 1 })

/-- Source `removeCursorElement` (lines 913-939): drop (and detach, when attached)
the three layer handles, then sweep every remaining marker-classed element
from the document.  Because the modeled body holds exactly the
marker-classed elements, the sweep leaves it empty. -/
def removeCursorElementStep (s : AuraState) (dom : Dom) : AuraState × Dom :=
  ({ s with cursorElement := none, cursorDot := none, centerDot := none },
   { dom with body := [] })

/-- Source `createCursorElement` (lines 344-408): sweep stray marker-classed
elements, create the primary layer (plus the outline dot in outline mode,
plus the center dot when the default cursor is hidden outside outline
mode), and seed all position fields from the last observed pointer location
or the viewport center.  The `applyStyles` calls and the initial
`opacity = '0'` writes touch only element styles. -/
def createCursorElementStep (env : Env) (s : AuraState) (dom : Dom) : AuraState × Dom :=
  let dom := { dom with body := [] }
  let (cid, dom) := appendFresh LayerClass.auraCursor dom
  let s := { s with cursorElement := some cid }
  let (s, dom) :=
    if s.optionsBase.outlineMode then
      let (did, dom) := appendFresh LayerClass.auraCursorDot dom
      ({ s with cursorDot := some did }, dom)
    else (s, dom)
  let (s, dom) :=
    if s.optionsBase.hideDefaultCursor && !s.optionsBase.outlineMode then
      if s.centerDot = none then
        let (mid, dom) := appendFresh LayerClass.auraCursorCenterDot dom
        ({ s with centerDot := some mid }, dom)
      else (s, dom)
    else
      match s.centerDot with
      | some i =>
        if attached i dom then ({ s with centerDot := none }, removeElem i dom)
        else (s, dom)
      | none => (s, dom)
  let initial :=
    match dom.lastMouse with
    | some p => p
    | none => (env.innerWidth / 2, env.innerHeight / 2)
  ({ s with
      currentX := initial.1, currentY := initial.2
      targetX := initial.1, targetY := initial.2
      centerDotX := initial.1, centerDotY := initial.2
      outlineCircleX := initial.1, outlineCircleY := initial.2 }, dom)

/-- The effectful part of `init` (lines 182-191), once the guards have
passed: create the layers, attach the listeners, run the first animation
tick, mark active, install the cursor suppression when configured, set up
the resize watcher. -/
def initBody (env : Env) (s : AuraState) (dom : Dom) : AuraState × Dom :=
  let p1 := createCursorElementStep env s dom
  let p2 := animateStep { p1.1 with listenersAttached := true } p1.2
  let s3 := { p2.1 with isActive := true }
  let p3 :=
    if s3.optionsBase.hideDefaultCursor then hideDefaultCursorStep s3 p2.2 else (s3, p2.2)
  (if p3.1.resizeHandler then p3.1 else { p3.1 with resizeHandler := true }, p3.2)

/-- Source `init` (lines 173-192): no-op when already active, without a window, or
on a mobile device; otherwise run the initialization body. -/
def init (env : Env) (s : AuraState) (dom : Dom) : AuraState × Dom :=
  if s.isActive || !env.hasWindow then (s, dom)
  else if isMobileDevice env then (s, dom)
  else initBody env s dom

/-- The effectful part of `destroy` (lines 202-215): detach the listeners
and the resize watcher, remove every layer, cancel the pending animation
frame, restore the default cursor when it was hidden, mark inactive. -/
def destroyBody (s : AuraState) (dom : Dom) : AuraState × Dom :=
  let p1 := removeCursorElementStep { s with listenersAttached := false, resizeHandler := false } dom
  let p2 :=
    match p1.1.animationFrameId with
    | some fid =>
      ({ p1.1 with animationFrameId := none },
       { p1.2 with pendingFrames := p1.2.pendingFrames.erase fid })
    | none => p1
  let p3 :=
    if p2.1.optionsBase.hideDefaultCursor then showDefaultCursorStep p2.1 p2.2 else p2
  ({ p3.1 with isActive := false }, p3.2)

/-- Source `destroy` (lines 197-216): no-op when not active. -/
def destroy (s : AuraState) (dom : Dom) : AuraState × Dom :=
  if s.isActive then destroyBody s dom else (s, dom)

/-- Iterated `init` calls. -/
def initN (env : Env) : ℕ → AuraState × Dom → AuraState × Dom
  | 0, p => p
  | n + 1, p => initN env n (init env p.1 p.2)

/-- Whether a body element is a primary layer (class `aura-cursor`). -/
def isPrimaryLayer : ℕ × LayerClass → Bool
  | (_, LayerClass.auraCursor) => true
  | _ => false

/-- Number of primary layers (`.aura-cursor` elements) in the document. -/
def primaryLayerCount (dom : Dom) : ℕ :=
  (dom.body.filter isPrimaryLayer).length

/-- A `mousemove` event: pointer coordinates and the event target (none when
the target is not an `HTMLElement`). -/
structure MouseEvt where
  clientX : ℚ
  clientY : ℚ
  target : Option Chain
deriving DecidableEq

/-- Source `handleWindowBlur` (lines 730-733): mark the mouse as outside and hide
the layers (an element-style write). -/
def handleWindowBlur (s : AuraState) : AuraState :=
  { s with isMouseInWindow := false }

/-- Source `handleMouseMove` (lines 763-832).  The handler records the event in the
document-level global, bails out while the mouse is flagged outside the
window or the target is not an element, classifies the target (threading
the pointer cache, twice when a hover effect is configured), applies the
interactive-only filter, and finally updates the target position and — in
outline mode or with the default cursor hidden — the center-dot position.
All `applyStyles`/`hideCursor`/`update*Position` calls write element styles
only. -/
def handleMouseMove (e : MouseEvt) (s : AuraState) (dom : Dom) : AuraState × Dom :=
  let dom := { dom with lastMouse := some (e.clientX, e.clientY) }
  if !s.isMouseInWindow then (s, dom)
  else
    match e.target with
    | none => (s, dom)
    | some c =>
      let r := isInteractiveElement (ctxOf s dom) s.pointerElementsCache c
      let isInteractive := r.1
      let s := { s with isOnInteractiveElement := isInteractive, pointerElementsCache := r.2 }
      if s.optionsBase.interactiveOnly && !isInteractive then (s, dom)
      else
        let s := { s with isHoveringInteractive := isInteractive }
        let s :=
          match s.hoverEffect with
          | some _ =>
            let r2 := isInteractiveElement (ctxOf s dom) s.pointerElementsCache c
            { s with isPointer := r2.1, pointerElementsCache := r2.2 }
          | none => s
        let s := { s with targetX := e.clientX, targetY := e.clientY }
        let s :=
          if s.optionsBase.outlineMode then
            { s with centerDotX := e.clientX, centerDotY := e.clientY }
          else s
        let s :=
          if s.optionsBase.hideDefaultCursor then
            { s with centerDotX := e.clientX, centerDotY := e.clientY }
          else s
        (s, dom)

/-- A desktop host: window present, no touch capability, large viewport. -/
def desktopEnv : Env where
  hasWindow := true
  hasTouch := false
  innerWidth := 1024
  innerHeight := 768
  mobileUserAgent := false

/-- The empty page: no marker elements, no suppression style, no pending
frames, no recorded pointer events. -/
def emptyDom : Dom where
  body := []
  headStyle := none
  pendingFrames := []
  lastMouse := none
  nextId := 0

/-- Merge of one optional field (`if (options.x !== undefined) this.baseOptions.x = options.x`)
for fields whose stored value is itself optional. -/
def mergeOpt {α : Type} (new old : Option α) : Option α :=
  match new with
  | some v => some v
  | none => old

/-- The pure field-by-field merge of an `updateOptions` payload into
`baseOptions`, exactly the assignments of lines 229-273 with their
side-effect calls stripped. -/
def mergeBaseOptions (p : AuraCursorOptions) (b : BaseOptions) : BaseOptions where
  size := p.size.getD b.size
  color := p.color.getD b.color
  opacity := p.opacity.getD b.opacity
  speed := p.speed.getD b.speed
  hideDefaultCursor := p.hideDefaultCursor.getD b.hideDefaultCursor
  className := p.className.getD b.className
  interactiveOnly := p.interactiveOnly.getD b.interactiveOnly
  outlineMode := p.outlineMode.getD b.outlineMode
  outlineWidth := p.outlineWidth.getD b.outlineWidth
  centerDotColor := mergeOpt p.centerDotColor b.centerDotColor
  hoverColor := mergeOpt p.hoverColor b.hoverColor
  centerDotSize := p.centerDotSize.getD b.centerDotSize
  centerDotHoverColor := mergeOpt p.centerDotHoverColor b.centerDotHoverColor

/-- Source `updateOptions` (lines 221-339).  Sequencing follows the source: the
hover effect is stored on `this.options` first; `hideDefaultCursorChanged`
is computed against the pre-merge `baseOptions`; the scalar fields are
merged; toggling `outlineMode` while active rebuilds the layers (reading
the not-yet-reassigned `this.options`); the remaining fields are merged;
`this.options` is rebuilt from `baseOptions`; then — gated only on the flag
change, NOT on `isActive` — the global suppression style and the center dot
are installed or removed; then, while active, an `outlineMode` payload adds
or removes the outline dot; the final `applyStyles` writes element styles
only.  The `querySelectorAll('.aura-cursor-center-dot')` sweeps detach the
engine's own center dot too, so the subsequent
`this.centerDot.parentNode` guards fail and the handle goes stale rather
than being nulled. -/
def updateOptions (env : Env) (p : AuraCursorOptions) (s : AuraState) (dom : Dom) :
    AuraState × Dom :=
  let s :=
    match p.hoverEffect with
    | some he => { s with hoverEffect := some he }
    | none => s
  let hideChanged :=
    match p.hideDefaultCursor with
    | some b => b != s.baseOptions.hideDefaultCursor
    | none => false
  let s := { s with baseOptions :=
    { s.baseOptions with
        size := p.size.getD s.baseOptions.size
        color := p.color.getD s.baseOptions.color
        opacity := p.opacity.getD s.baseOptions.opacity
        speed := p.speed.getD s.baseOptions.speed
        hideDefaultCursor := p.hideDefaultCursor.getD s.baseOptions.hideDefaultCursor
        className := p.className.getD s.baseOptions.className
        interactiveOnly := p.interactiveOnly.getD s.baseOptions.interactiveOnly } }
  let sdom :=
    match p.outlineMode with
    | some om =>
      let s := { s with baseOptions := { s.baseOptions with outlineMode := om } }
      if s.isActive then
        let (s, dom) := removeCursorElementStep s dom
        createCursorElementStep env s dom
      else (s, dom)
    | none => (s, dom)
  let s := sdom.1
  let dom := sdom.2
  let s := { s with baseOptions :=
    { s.baseOptions with
        outlineWidth := p.outlineWidth.getD s.baseOptions.outlineWidth
        centerDotColor := mergeOpt p.centerDotColor s.baseOptions.centerDotColor
        hoverColor := mergeOpt p.hoverColor s.baseOptions.hoverColor
        centerDotSize := p.centerDotSize.getD s.baseOptions.centerDotSize
        centerDotHoverColor := mergeOpt p.centerDotHoverColor s.baseOptions.centerDotHoverColor } }
  let s := { s with optionsBase := s.baseOptions }
  let sdom :=
    if hideChanged then
      if s.optionsBase.hideDefaultCursor && !s.optionsBase.outlineMode then
        let (s, dom) := hideDefaultCursorStep s dom
        let dom := removeAllOfClass LayerClass.auraCursorCenterDot dom
        if s.centerDot = none then
          let (mid, dom) := appendFresh LayerClass.auraCursorCenterDot dom
          ({ s with centerDot := some mid }, dom)
        else (s, dom)
      else
        let (s, dom) := showDefaultCursorStep s dom
        let dom := removeAllOfClass LayerClass.auraCursorCenterDot dom
        match s.centerDot with
        | some i =>
          if attached i dom then ({ s with centerDot := none }, removeElem i dom)
          else (s, dom)
        | none => (s, dom)
    else (s, dom)
  let s := sdom.1
  let dom := sdom.2
  let sdom :=
    if p.outlineMode.isSome && s.isActive then
      if s.optionsBase.outlineMode then
        let (s, dom) :=
          if s.cursorDot = none then
            let (did, dom) := appendFresh LayerClass.auraCursorDot dom
            ({ s with cursorDot := some did }, dom)
          else (s, dom)
        match s.centerDot with
        | some i =>
          if attached i dom then ({ s with centerDot := none }, removeElem i dom)
          else (s, dom)
        | none => (s, dom)
      else
        let (s, dom) :=
          match s.cursorDot with
          | some i =>
            if attached i dom then ({ s with cursorDot := none }, removeElem i dom)
            else (s, dom)
          | none => (s, dom)
        if s.optionsBase.hideDefaultCursor && s.centerDot = none then
          let (mid, dom) := appendFresh LayerClass.auraCursorCenterDot dom
          ({ s with centerDot := some mid }, dom)
        else (s, dom)
    else (s, dom)
  sdom

/-- The per-tick effective speed as the spec states it: the configured speed
when the Euclidean distance is at most 50 (equivalently `d² ≤ 50²`), and
`min(2·speed, 0.8)` when it exceeds 50. -/
def specEffectiveSpeed (speed d2 : ℚ) : ℚ :=
  if d2 ≤ 50 ^ 2 then speed else min (2 * speed) 0.8

/-- Displayed position (x) of the layer interpolated by the tick: the outer
ring in outline mode, the primary circle otherwise. -/
def displayedX (s : AuraState) : ℚ :=
  if s.optionsBase.outlineMode then s.outlineCircleX else s.currentX

/-- Displayed position (y) of the layer interpolated by the tick. -/
def displayedY (s : AuraState) : ℚ :=
  if s.optionsBase.outlineMode then s.outlineCircleY else s.currentY

/-- A default-configured engine whose target has moved 10 units right. -/
def tickSample : AuraState :=
  { mkState {} with targetX := 10 }

/-- An engine configured with the out-of-range speed 3/2 (accepted without
validation), target 10 units right of the displayed position. -/
def fastState : AuraState :=
  { mkState { speed := some (3 / 2) } with targetX := 10 }

/-- An outline-mode engine right after the window lost focus
(`handleWindowBlur` flags the mouse as outside the window). -/
def blurredOutlineState : AuraState :=
  handleWindowBlur (mkState { outlineMode := some true })

/-- An outline-mode engine with the mouse inside the window. -/
def outlineState : AuraState :=
  mkState { outlineMode := some true }

/-- A (hypothetical) engine state flagged active. -/
def activeSample : AuraState :=
  { mkState {} with isActive := true }

/-- A freshly constructed (hence inactive) engine. -/
def inactiveSample : AuraState :=
  mkState { hideDefaultCursor := some true }

/-- The classifier's result as a pure function of the chain's original
styling and structure (what a cache-free, unsuppressed computation yields):
some walk node's original cursor is `pointer`, or the leaf/ancestor
tag-attribute-handler checks fire. -/
def pureInteractive (c : Chain) : Bool :=
  (walkNodes c).any (fun n => n.origCursor == "pointer") ||
    (c.self.tag == "A" || c.self.tag == "BUTTON" || c.self.role == some "button" ||
      c.self.onclickProp ||
      (c.self.tag == "INPUT" &&
        (c.self.inputType == some "range" || c.self.inputType == some "color" ||
          c.self.inputType == some "checkbox")) ||
      (allNodes c).any matchesInteractiveSelector)

/-- The classification exactly as claim C7 words it: the leaf is an anchor,
a button, carries `role="button"`, has a native click handler, is a
range/color/checkbox input, has an ancestor matching the interactive
selector set, or the leaf or one of its ancestors below `document.body` has
computed cursor style `pointer`. -/
def interactiveSpec (c : Chain) : Bool :=
  c.self.tag == "A" || c.self.tag == "BUTTON" || c.self.role == some "button" ||
    c.self.onclickProp ||
    (c.self.tag == "INPUT" &&
      (c.self.inputType == some "range" || c.self.inputType == some "color" ||
        c.self.inputType == some "checkbox")) ||
    (c.belowBody ++ c.fromBody).any matchesInteractiveSelector ||
    (walkNodes c).any (fun n => n.origCursor == "pointer")

/-- A cache is consistent for a node list when every hit it would give for
one of those nodes agrees with the node's freshly computed pointer flag. -/
def CacheOK (ctx : CursorCtx) (cache : List (ℕ × Bool)) (ns : List ElemNode) : Prop :=
  ∀ n ∈ ns, ∀ b, cacheGet cache n.id = some b → b = effPointer ctx n

/-- An `updateOptions` payload that only toggles `hideDefaultCursor`. -/
def toggleHide (b : Bool) : AuraCursorOptions :=
  { hideDefaultCursor := some b }

/-- A `<div>` styled `cursor: pointer`, directly under `document.body`. -/
def pointerDivChain : Chain :=
  { plainDivChain with self := { plainDiv with id := 2, origCursor := "pointer" } }

/-!
## Theorems
-/

/-- Bridging lemma for the squared embedding of the distance test: for a
nonnegative squared distance, `Math.sqrt(d²) > 50` is exactly `d² > 50²`. -/
theorem sqrt_gt_fifty_iff (d2 : ℚ) :
    50 < Real.sqrt (d2 : ℝ) ↔ (50 : ℚ) ^ 2 < d2 := by
  rw [show ((50 : ℝ)) = Real.sqrt (50 ^ 2) by
        rw [Real.sqrt_sq]; norm_num]
  rw [Real.sqrt_lt_sqrt_iff (by positivity)]
  constructor
  · intro hlt
    exact_mod_cast hlt
  · intro hlt
    exact_mod_cast hlt

/-- C1: in non-outline mode, one frame tick moves the displayed position to
exactly `D₁ = D₀ + (P − D₀)·s`, where the effective speed `s` is the
configured speed when the (squared) Euclidean distance between target and
displayed position is at most 50 (squared), and `min(2·speed, 0.8)` when it
exceeds it. -/
theorem C1_tick_interpolation (s : AuraState) (dom : Dom)
    (hmode : s.optionsBase.outlineMode = false) :
    (animateStep s dom).1.currentX =
      s.currentX + (s.targetX - s.currentX) *
        specEffectiveSpeed s.optionsBase.speed
          ((s.targetX - s.currentX) ^ 2 + (s.targetY - s.currentY) ^ 2) ∧
    (animateStep s dom).1.currentY =
      s.currentY + (s.targetY - s.currentY) *
        specEffectiveSpeed s.optionsBase.speed
          ((s.targetX - s.currentX) ^ 2 + (s.targetY - s.currentY) ^ 2) := by
  have hspeed : ∀ d2 : ℚ,
      (if d2 > 50 ^ 2 then min (s.optionsBase.speed * 2) 0.8 else s.optionsBase.speed) =
        specEffectiveSpeed s.optionsBase.speed d2 := by
    intro d2
    unfold specEffectiveSpeed
    rcases le_or_lt d2 (50 ^ 2) with hd | hd
    · rw [if_neg (not_lt.mpr hd), if_pos hd]
    · rw [if_pos hd, if_neg (not_le.mpr hd), mul_comm]
  constructor <;> simp only [animateStep, hmode, Bool.false_eq_true, if_false, hspeed]

/-- Witness for C1 at a concrete non-outline state. -/
theorem C1_tick_interpolation_witness :
    tickSample.optionsBase.outlineMode = false ∧
    ((animateStep tickSample emptyDom).1.currentX =
      tickSample.currentX + (tickSample.targetX - tickSample.currentX) *
        specEffectiveSpeed tickSample.optionsBase.speed
          ((tickSample.targetX - tickSample.currentX) ^ 2 +
            (tickSample.targetY - tickSample.currentY) ^ 2) ∧
     (animateStep tickSample emptyDom).1.currentY =
      tickSample.currentY + (tickSample.targetY - tickSample.currentY) *
        specEffectiveSpeed tickSample.optionsBase.speed
          ((tickSample.targetX - tickSample.currentX) ^ 2 +
            (tickSample.targetY - tickSample.currentY) ^ 2)) :=
  ⟨by decide, C1_tick_interpolation tickSample emptyDom (by decide)⟩

/-- C3 fails as stated: in outline mode, a pointer-move event delivered
while the mouse is flagged outside the window (here: right after
`handleWindowBlur`, e.g. the window lost focus with the pointer still
moving) does NOT move the inner dot to the pointer position — the handler
returns before the position updates. -/
theorem C3_counterexample :
    blurredOutlineState.optionsBase.outlineMode = true ∧
    blurredOutlineState.centerDotX = 0 ∧
    (handleMouseMove ⟨100, 100, some plainDivChain⟩ blurredOutlineState emptyDom).1.centerDotX
      = 0 ∧
    (100 : ℚ) ≠ 0 := by
  refine ⟨by decide, by decide, by decide, by norm_num⟩

/-- C3 amended: in outline mode, every pointer-move event the handler
processes to completion — mouse flagged inside the window, an element
target, and interactive-only filtering off — sets the inner dot's position
(and the target) exactly to the pointer position; and every frame tick
moves the outer ring toward the target with base speed half the configured
speed, doubled and capped at 0.8 when the distance to target exceeds 50. -/
theorem C3_outline_two_speeds (s : AuraState) (dom : Dom) (e : MouseEvt) (c : Chain)
    (hmode : s.optionsBase.outlineMode = true)
    (hwin : s.isMouseInWindow = true)
    (htgt : e.target = some c)
    (hio : s.optionsBase.interactiveOnly = false) :
    ((handleMouseMove e s dom).1.centerDotX = e.clientX ∧
     (handleMouseMove e s dom).1.centerDotY = e.clientY ∧
     (handleMouseMove e s dom).1.targetX = e.clientX ∧
     (handleMouseMove e s dom).1.targetY = e.clientY) ∧
    ((animateStep s dom).1.outlineCircleX =
      s.outlineCircleX + (s.targetX - s.outlineCircleX) *
        specEffectiveSpeed (s.optionsBase.speed * 0.5)
          ((s.targetX - s.outlineCircleX) ^ 2 + (s.targetY - s.outlineCircleY) ^ 2) ∧
     (animateStep s dom).1.outlineCircleY =
      s.outlineCircleY + (s.targetY - s.outlineCircleY) *
        specEffectiveSpeed (s.optionsBase.speed * 0.5)
          ((s.targetX - s.outlineCircleX) ^ 2 + (s.targetY - s.outlineCircleY) ^ 2)) := by
  have hspeed : ∀ d2 : ℚ,
      (if d2 > 50 ^ 2 then min (s.optionsBase.speed * 0.5 * 2) 0.8
        else s.optionsBase.speed * 0.5) =
        specEffectiveSpeed (s.optionsBase.speed * 0.5) d2 := by
    intro d2
    unfold specEffectiveSpeed
    rcases le_or_lt d2 (50 ^ 2) with hd | hd
    · rw [if_neg (not_lt.mpr hd), if_pos hd]
    · rw [if_pos hd, if_neg (not_le.mpr hd), mul_comm]
  constructor
  · simp only [handleMouseMove, hwin, htgt, Bool.not_true, Bool.false_eq_true, if_false,
      hio, Bool.false_and]
    cases s.hoverEffect <;>
      cases hhide : s.optionsBase.hideDefaultCursor <;>
        simp [hmode, hhide]
  · constructor <;> simp only [animateStep, hmode, if_true, hspeed]

/-- Witness for the amended C3: a pointer-move to (100, 100) over a plain
div in a fresh outline-mode engine, and one tick of the same engine. -/
theorem C3_outline_two_speeds_witness :
    (outlineState.optionsBase.outlineMode = true ∧
     outlineState.isMouseInWindow = true ∧
     (MouseEvt.mk 100 100 (some plainDivChain)).target = some plainDivChain ∧
     outlineState.optionsBase.interactiveOnly = false) ∧
    (((handleMouseMove ⟨100, 100, some plainDivChain⟩ outlineState emptyDom).1.centerDotX = 100 ∧
      (handleMouseMove ⟨100, 100, some plainDivChain⟩ outlineState emptyDom).1.centerDotY = 100 ∧
      (handleMouseMove ⟨100, 100, some plainDivChain⟩ outlineState emptyDom).1.targetX = 100 ∧
      (handleMouseMove ⟨100, 100, some plainDivChain⟩ outlineState emptyDom).1.targetY = 100) ∧
     ((animateStep outlineState emptyDom).1.outlineCircleX =
       outlineState.outlineCircleX + (outlineState.targetX - outlineState.outlineCircleX) *
         specEffectiveSpeed (outlineState.optionsBase.speed * 0.5)
           ((outlineState.targetX - outlineState.outlineCircleX) ^ 2 +
             (outlineState.targetY - outlineState.outlineCircleY) ^ 2) ∧
      (animateStep outlineState emptyDom).1.outlineCircleY =
       outlineState.outlineCircleY + (outlineState.targetY - outlineState.outlineCircleY) *
         specEffectiveSpeed (outlineState.optionsBase.speed * 0.5)
           ((outlineState.targetX - outlineState.outlineCircleX) ^ 2 +
             (outlineState.targetY - outlineState.outlineCircleY) ^ 2))) :=
  ⟨⟨by decide, by decide, rfl, by decide⟩,
   C3_outline_two_speeds outlineState emptyDom ⟨100, 100, some plainDivChain⟩ plainDivChain
     (by decide) (by decide) rfl (by decide)⟩

/-- C6: construction with an empty configuration yields the documented
defaults (size 20, color `#000000`, opacity 0.5, speed 0.3, outlineWidth 2,
centerDotSize 3) — but the hover scale used while hovering an interactive
element with a hover effect configured is 1, not the documented default
1.5: the source's `@default 1.5` for `scale` appears nowhere in the code,
whose fallback branch yields 1. -/
theorem C6_hover_scale_divergence :
    (mkBaseOptions {}).size = 20 ∧
    (mkBaseOptions {}).color = "#000000" ∧
    (mkBaseOptions {}).opacity = 0.5 ∧
    (mkBaseOptions {}).speed = 0.3 ∧
    (mkBaseOptions {}).outlineWidth = 2 ∧
    (mkBaseOptions {}).centerDotSize = 3 ∧
    hoverScale true (some {}) = 1 ∧
    hoverScale true (some {}) ≠ 3 / 2 := by
  refine ⟨rfl, rfl, rfl, rfl, rfl, rfl, rfl, ?_⟩
  show (1 : ℚ) ≠ 3 / 2
  norm_num

/-- C10: one frame tick modifies neither the target position, nor the
stored configuration, nor any mode flag, nor any layer/style handle, nor
the cache or listener registrations; it writes only the mode-appropriate
displayed positions (setting the inner dot to the target in outline mode)
and re-arms the next animation frame. -/
theorem C10_tick_frame_effects (s : AuraState) (dom : Dom) :
    (animateStep s dom).1.targetX = s.targetX ∧
    (animateStep s dom).1.targetY = s.targetY ∧
    (animateStep s dom).1.baseOptions = s.baseOptions ∧
    (animateStep s dom).1.optionsBase = s.optionsBase ∧
    (animateStep s dom).1.hoverEffect = s.hoverEffect ∧
    (animateStep s dom).1.isActive = s.isActive ∧
    (animateStep s dom).1.isPointer = s.isPointer ∧
    (animateStep s dom).1.isHoveringInteractive = s.isHoveringInteractive ∧
    (animateStep s dom).1.isOnInteractiveElement = s.isOnInteractiveElement ∧
    (animateStep s dom).1.isMouseInWindow = s.isMouseInWindow ∧
    (animateStep s dom).1.cursorElement = s.cursorElement ∧
    (animateStep s dom).1.cursorDot = s.cursorDot ∧
    (animateStep s dom).1.centerDot = s.centerDot ∧
    (animateStep s dom).1.styleElement = s.styleElement ∧
    (animateStep s dom).1.pointerElementsCache = s.pointerElementsCache ∧
    (animateStep s dom).1.listenersAttached = s.listenersAttached ∧
    (animateStep s dom).1.resizeHandler = s.resizeHandler ∧
    (animateStep s dom).1.centerDotX =
      (if s.optionsBase.outlineMode then s.targetX else s.centerDotX) ∧
    (animateStep s dom).1.centerDotY =
      (if s.optionsBase.outlineMode then s.targetY else s.centerDotY) ∧
    (s.optionsBase.outlineMode = true ∨
      ((animateStep s dom).1.outlineCircleX = s.outlineCircleX ∧
       (animateStep s dom).1.outlineCircleY = s.outlineCircleY)) ∧
    (s.optionsBase.outlineMode = false ∨
      ((animateStep s dom).1.currentX = s.currentX ∧
       (animateStep s dom).1.currentY = s.currentY)) ∧
    (animateStep s dom).1.animationFrameId = some dom.nextId ∧
    (animateStep s dom).2.body = dom.body ∧
    (animateStep s dom).2.headStyle = dom.headStyle ∧
    (animateStep s dom).2.lastMouse = dom.lastMouse ∧
    (animateStep s dom).2.pendingFrames = dom.pendingFrames ++ [dom.nextId] := by
  cases hmode : s.optionsBase.outlineMode <;>
    simp [animateStep, hmode]

/-- C2 fails as stated: with the accepted-as-is out-of-range speed 3/2 and a
target 10 units away (distance ≤ 50), the interpolation factor is 3/2,
outside (0, 0.8], and the tick moves the displayed position to 15 — past
the target, off the segment between previous position and target. -/
theorem C2_counterexample :
    fastState.optionsBase.speed = 3 / 2 ∧
    ¬ fastState.optionsBase.speed ≤ 0.8 ∧
    displayedX fastState = 0 ∧ fastState.targetX = 10 ∧
    displayedX (animateStep fastState emptyDom).1 = 15 ∧
    ¬ displayedX (animateStep fastState emptyDom).1 ≤
        max (displayedX fastState) fastState.targetX := by
  refine ⟨?_, ?_, ?_, ?_, ?_, ?_⟩ <;>
    simp only [fastState, mkState, mkBaseOptions, animateStep, displayedX,
      Option.getD_some, Option.getD_none] <;>
    norm_num

/-- C2 amended: for every configuration whose speed lies in (0, 0.8] (the
documented 0-to-1 range intersected with what the 0.8 cap guarantees), the
per-tick interpolation factor lies in (0, 0.8] and the displayed position
stays on the segment between its previous value and the target. -/
theorem interp_between (a b t : ℚ) (ht0 : 0 < t) (ht1 : t ≤ 1) :
    min a b ≤ a + (b - a) * t ∧ a + (b - a) * t ≤ max a b := by
  rcases le_total a b with hab | hab
  · rw [min_eq_left hab, max_eq_right hab]
    constructor <;> nlinarith
  · rw [min_eq_right hab, max_eq_left hab]
    constructor <;> nlinarith

theorem C2_no_overshoot (s : AuraState) (dom : Dom)
    (h0 : 0 < s.optionsBase.speed) (h8 : s.optionsBase.speed ≤ 0.8) :
    ∃ t : ℚ, 0 < t ∧ t ≤ 0.8 ∧
      displayedX (animateStep s dom).1 = displayedX s + (s.targetX - displayedX s) * t ∧
      displayedY (animateStep s dom).1 = displayedY s + (s.targetY - displayedY s) * t ∧
      min (displayedX s) s.targetX ≤ displayedX (animateStep s dom).1 ∧
      displayedX (animateStep s dom).1 ≤ max (displayedX s) s.targetX ∧
      min (displayedY s) s.targetY ≤ displayedY (animateStep s dom).1 ∧
      displayedY (animateStep s dom).1 ≤ max (displayedY s) s.targetY := by
  have main : ∃ t : ℚ, 0 < t ∧ t ≤ 0.8 ∧
      displayedX (animateStep s dom).1 = displayedX s + (s.targetX - displayedX s) * t ∧
      displayedY (animateStep s dom).1 = displayedY s + (s.targetY - displayedY s) * t := by
    cases hmode : s.optionsBase.outlineMode with
    | true =>
      refine ⟨if (s.targetX - s.outlineCircleX) ^ 2 + (s.targetY - s.outlineCircleY) ^ 2 > 50 ^ 2
          then min (s.optionsBase.speed * 0.5 * 2) 0.8 else s.optionsBase.speed * 0.5,
        ?_, ?_, ?_, ?_⟩
      · split
        · exact lt_min (by linarith) (by norm_num)
        · linarith
      · split
        · exact min_le_right _ _
        · linarith
      · simp [animateStep, displayedX, hmode]
      · simp [animateStep, displayedY, hmode]
    | false =>
      refine ⟨if (s.targetX - s.currentX) ^ 2 + (s.targetY - s.currentY) ^ 2 > 50 ^ 2
          then min (s.optionsBase.speed * 2) 0.8 else s.optionsBase.speed,
        ?_, ?_, ?_, ?_⟩
      · split
        · exact lt_min (by linarith) (by norm_num)
        · linarith
      · split
        · exact min_le_right _ _
        · linarith
      · simp [animateStep, displayedX, hmode]
      · simp [animateStep, displayedY, hmode]
  obtain ⟨t, ht0, ht8, hx, hy⟩ := main
  have ht1 : t ≤ 1 := by linarith [show (0.8 : ℚ) ≤ 1 by norm_num]
  refine ⟨t, ht0, ht8, hx, hy, ?_, ?_, ?_, ?_⟩
  · exact hx ▸ (interp_between (displayedX s) s.targetX t ht0 ht1).1
  · exact hx ▸ (interp_between (displayedX s) s.targetX t ht0 ht1).2
  · exact hy ▸ (interp_between (displayedY s) s.targetY t ht0 ht1).1
  · exact hy ▸ (interp_between (displayedY s) s.targetY t ht0 ht1).2

/-- Witness for the amended C2 at the default configuration (speed 0.3). -/
theorem C2_no_overshoot_witness :
    (0 < tickSample.optionsBase.speed ∧ tickSample.optionsBase.speed ≤ 0.8) ∧
    (∃ t : ℚ, 0 < t ∧ t ≤ 0.8 ∧
      displayedX (animateStep tickSample emptyDom).1 =
        displayedX tickSample + (tickSample.targetX - displayedX tickSample) * t ∧
      displayedY (animateStep tickSample emptyDom).1 =
        displayedY tickSample + (tickSample.targetY - displayedY tickSample) * t ∧
      min (displayedX tickSample) tickSample.targetX ≤
        displayedX (animateStep tickSample emptyDom).1 ∧
      displayedX (animateStep tickSample emptyDom).1 ≤
        max (displayedX tickSample) tickSample.targetX ∧
      min (displayedY tickSample) tickSample.targetY ≤
        displayedY (animateStep tickSample emptyDom).1 ∧
      displayedY (animateStep tickSample emptyDom).1 ≤
        max (displayedY tickSample) tickSample.targetY) :=
  ⟨⟨by norm_num [tickSample, mkState, mkBaseOptions], by norm_num [tickSample, mkState, mkBaseOptions]⟩,
   C2_no_overshoot tickSample emptyDom (by norm_num [tickSample, mkState, mkBaseOptions])
     (by norm_num [tickSample, mkState, mkBaseOptions])⟩

theorem init_noop_of_active (env : Env) (s : AuraState) (dom : Dom)
    (h : s.isActive = true) : init env s dom = (s, dom) := by
  simp [init, h]

theorem initN_noop_of_active (env : Env) (n : ℕ) (p : AuraState × Dom)
    (h : p.1.isActive = true) : initN env n p = p := by
  induction n with
  | zero => rfl
  | succ m ih =>
    rw [initN, init_noop_of_active env p.1 p.2 h]
    exact ih

theorem animateStep_body (s : AuraState) (dom : Dom) :
    (animateStep s dom).2.body = dom.body := rfl

theorem animateStep_isActive (s : AuraState) (dom : Dom) :
    (animateStep s dom).1.isActive = s.isActive := by
  cases h : s.optionsBase.outlineMode <;> simp [animateStep, h]

theorem hideStep_body (s : AuraState) (dom : Dom) :
    (hideDefaultCursorStep s dom).2.body = dom.body := by
  cases h : s.styleElement <;> simp [hideDefaultCursorStep, h]

theorem hideStep_isActive (s : AuraState) (dom : Dom) :
    (hideDefaultCursorStep s dom).1.isActive = s.isActive := by
  cases h : s.styleElement <;> simp [hideDefaultCursorStep, h]

theorem createCursor_count (env : Env) (s : AuraState) (dom : Dom)
    (hcd : s.centerDot = none) :
    primaryLayerCount (createCursorElementStep env s dom).2 = 1 := by
  cases ho : s.optionsBase.outlineMode <;> cases hh : s.optionsBase.hideDefaultCursor <;>
    simp [createCursorElementStep, appendFresh, primaryLayerCount, isPrimaryLayer,
      ho, hh, hcd, attached, removeElem, List.filter]

theorem createCursor_isActive (env : Env) (s : AuraState) (dom : Dom) :
    (createCursorElementStep env s dom).1.isActive = s.isActive := by
  cases ho : s.optionsBase.outlineMode <;> cases hh : s.optionsBase.hideDefaultCursor <;>
    cases hcd : s.centerDot <;>
      simp [createCursorElementStep, appendFresh, ho, hh, hcd, attached, removeElem] <;>
      (try (split <;> rfl))

theorem hideStep_animationFrameId (s : AuraState) (dom : Dom) :
    (hideDefaultCursorStep s dom).1.animationFrameId = s.animationFrameId := by
  cases h : s.styleElement <;> simp [hideDefaultCursorStep, h]

theorem hideStep_pendingFrames (s : AuraState) (dom : Dom) :
    (hideDefaultCursorStep s dom).2.pendingFrames = dom.pendingFrames := by
  cases h : s.styleElement <;> simp [hideDefaultCursorStep, h]

theorem animateStep_frameId (s : AuraState) (dom : Dom) :
    (animateStep s dom).1.animationFrameId = some dom.nextId := rfl

theorem animateStep_pendingFrames (s : AuraState) (dom : Dom) :
    (animateStep s dom).2.pendingFrames = dom.pendingFrames ++ [dom.nextId] := rfl

theorem animateStep_nextId (s : AuraState) (dom : Dom) :
    (animateStep s dom).2.nextId = dom.nextId + 1 := rfl

theorem initBody_isActive (env : Env) (s : AuraState) (dom : Dom) :
    (initBody env s dom).1.isActive = true := by
  simp only [initBody]
  split <;> split <;> simp [hideStep_isActive]

theorem initBody_body (env : Env) (s : AuraState) (dom : Dom) :
    (initBody env s dom).2.body = (createCursorElementStep env s dom).2.body := by
  simp only [initBody]
  split <;> simp [hideStep_body, animateStep_body]

theorem init_fresh (env : Env) (o : AuraCursorOptions) (dom : Dom)
    (hw : env.hasWindow = true) (hm : isMobileDevice env = false) :
    (init env (mkState o) dom).1.isActive = true ∧
    primaryLayerCount (init env (mkState o) dom).2 = 1 := by
  have hguard : ((mkState o).isActive || !env.hasWindow) = false := by
    simp [mkState, hw]
  rw [init, hguard]
  simp only [Bool.false_eq_true, if_false, hm]
  refine ⟨initBody_isActive env _ dom, ?_⟩
  rw [primaryLayerCount, initBody_body]
  exact createCursor_count env _ dom rfl

/-- C4: on a non-mobile host with a window, any number N ≥ 1 of consecutive
`init` calls from a freshly constructed engine leaves exactly one primary
layer in the document, for every configuration and every pre-existing set
of stray marker layers; an `init` on an already-active engine is a no-op;
and layer creation is insensitive to pre-existing stray marker layers
because it sweeps them first. -/
theorem C4_single_primary_layer (env : Env) (o : AuraCursorOptions) (dom : Dom) (n : ℕ)
    (s2 : AuraState) (dom2 : Dom)
    (hn : 1 ≤ n) (hw : env.hasWindow = true) (hm : isMobileDevice env = false)
    (hact : s2.isActive = true) :
    primaryLayerCount (initN env n (mkState o, dom)).2 = 1 ∧
    init env s2 dom2 = (s2, dom2) ∧
    (createCursorElementStep env s2 dom2).2.body =
      (createCursorElementStep env s2 { dom2 with body := [] }).2.body := by
  refine ⟨?_, init_noop_of_active env s2 dom2 hact, rfl⟩
  obtain ⟨m, rfl⟩ : ∃ m, n = m + 1 := ⟨n - 1, by omega⟩
  rw [initN]
  rw [initN_noop_of_active env m _ (init_fresh env o dom hw hm).1]
  exact (init_fresh env o dom hw hm).2

/-- Witness for C4: two `init` calls of a default engine on a desktop page
that already contains a stray marker layer; plus the no-op and
sweep-insensitivity facts at an active state. -/
theorem C4_single_primary_layer_witness :
    (1 ≤ 2 ∧ desktopEnv.hasWindow = true ∧ isMobileDevice desktopEnv = false ∧
      activeSample.isActive = true) ∧
    (primaryLayerCount
        (initN desktopEnv 2
          (mkState {}, { emptyDom with body := [(7, LayerClass.auraCursor)] })).2 = 1 ∧
      init desktopEnv activeSample emptyDom = (activeSample, emptyDom) ∧
      (createCursorElementStep desktopEnv activeSample emptyDom).2.body =
        (createCursorElementStep desktopEnv activeSample { emptyDom with body := [] }).2.body) :=
  ⟨⟨by decide, by decide, by decide, by decide⟩,
   C4_single_primary_layer desktopEnv {} { emptyDom with body := [(7, LayerClass.auraCursor)] }
     2 activeSample emptyDom (by decide) (by decide) (by decide) (by decide)⟩

theorem showStep_body (s : AuraState) (dom : Dom) :
    (showDefaultCursorStep s dom).2.body = dom.body := by
  rw [showDefaultCursorStep]
  cases s.styleElement
  · rfl
  · dsimp only
    split <;> rfl

theorem showStep_pendingFrames (s : AuraState) (dom : Dom) :
    (showDefaultCursorStep s dom).2.pendingFrames = dom.pendingFrames := by
  rw [showDefaultCursorStep]
  cases s.styleElement
  · rfl
  · dsimp only
    split <;> rfl

theorem showStep_animationFrameId (s : AuraState) (dom : Dom) :
    (showDefaultCursorStep s dom).1.animationFrameId = s.animationFrameId := by
  rw [showDefaultCursorStep]
  cases s.styleElement
  · rfl
  · dsimp only
    split <;> rfl

theorem destroyBody_cleanup (s : AuraState) (dom : Dom) (fid : ℕ)
    (hfr : s.animationFrameId = some fid) (hpf : dom.pendingFrames = [fid]) :
    (destroyBody s dom).2.body = [] ∧
    (destroyBody s dom).1.animationFrameId = none ∧
    (destroyBody s dom).2.pendingFrames = [] := by
  simp only [destroyBody, removeCursorElementStep, hfr]
  have herase : List.erase (α := ℕ) [fid] fid = [] := by
    simp [List.erase]
  refine ⟨?_, ?_, ?_⟩
  · show (if _ then showDefaultCursorStep _ _ else _).2.body = []
    split
    · rw [showStep_body]
    · rfl
  · show (if _ then showDefaultCursorStep _ _ else _).1.animationFrameId = none
    split
    · rw [showStep_animationFrameId]
    · rfl
  · show (if _ then showDefaultCursorStep _ _ else _).2.pendingFrames = []
    split
    · rw [showStep_pendingFrames]
      simp [hpf, herase]
    · simp [hpf, herase]

theorem initBody_frame (env : Env) (s : AuraState) (dom : Dom) :
    (initBody env s dom).1.animationFrameId =
      some (createCursorElementStep env s dom).2.nextId ∧
    (initBody env s dom).2.pendingFrames =
      (createCursorElementStep env s dom).2.pendingFrames ++
        [(createCursorElementStep env s dom).2.nextId] := by
  constructor
  · simp only [initBody]
    split <;> split <;> simp [hideStep_animationFrameId, animateStep_frameId]
  · simp only [initBody]
    split <;> simp [hideStep_pendingFrames, animateStep_pendingFrames]

theorem createCursor_pendingFrames (env : Env) (s : AuraState) (dom : Dom) :
    (createCursorElementStep env s dom).2.pendingFrames = dom.pendingFrames := by
  cases ho : s.optionsBase.outlineMode <;> cases hh : s.optionsBase.hideDefaultCursor <;>
    cases hcd : s.centerDot <;>
      simp [createCursorElementStep, appendFresh, ho, hh, hcd, attached, removeElem] <;>
      (try (split <;> rfl))

/-- C5: `destroy` after `init` (on a non-mobile host with a window and no
foreign frame registrations) removes every marker-classed layer from the
document, clears the stored frame registration and leaves no pending
animation frame, so no further tick runs; and `destroy` on an inactive
engine is a silent no-op, hence safe to repeat and safe without a prior
`init`. -/
theorem C5_destroy_cleanup (env : Env) (o : AuraCursorOptions) (dom : Dom)
    (s2 : AuraState) (dom2 : Dom)
    (hw : env.hasWindow = true) (hm : isMobileDevice env = false)
    (hpf : dom.pendingFrames = [])
    (hin : s2.isActive = false) :
    (destroy (init env (mkState o) dom).1 (init env (mkState o) dom).2).2.body = [] ∧
    (destroy (init env (mkState o) dom).1 (init env (mkState o) dom).2).1.animationFrameId
      = none ∧
    (destroy (init env (mkState o) dom).1 (init env (mkState o) dom).2).2.pendingFrames
      = [] ∧
    destroy s2 dom2 = (s2, dom2) := by
  have hact := (init_fresh env o dom hw hm).1
  have hguard : ((mkState o).isActive || !env.hasWindow) = false := by
    simp [mkState, hw]
  have hinit : init env (mkState o) dom = initBody env (mkState o) dom := by
    rw [init, hguard]
    simp [hm]
  have hfr : (init env (mkState o) dom).1.animationFrameId =
      some (createCursorElementStep env (mkState o) dom).2.nextId := by
    rw [hinit]
    exact (initBody_frame env (mkState o) dom).1
  have hpf2 : (init env (mkState o) dom).2.pendingFrames =
      [(createCursorElementStep env (mkState o) dom).2.nextId] := by
    rw [hinit]
    rw [(initBody_frame env (mkState o) dom).2, createCursor_pendingFrames, hpf]
    rfl
  have hdb : destroy (init env (mkState o) dom).1 (init env (mkState o) dom).2 =
      destroyBody (init env (mkState o) dom).1 (init env (mkState o) dom).2 := by
    rw [destroy, hact]
    rfl
  rw [hdb]
  obtain ⟨h1, h2, h3⟩ :=
    destroyBody_cleanup (init env (mkState o) dom).1 (init env (mkState o) dom).2
      (createCursorElementStep env (mkState o) dom).2.nextId hfr hpf2
  refine ⟨h1, h2, h3, ?_⟩
  simp [destroy, hin]

/-- Witness for C5: init-then-destroy of a default engine on an empty
desktop page, and a destroy of a never-started engine. -/
theorem C5_destroy_cleanup_witness :
    (desktopEnv.hasWindow = true ∧ isMobileDevice desktopEnv = false ∧
      emptyDom.pendingFrames = [] ∧ inactiveSample.isActive = false) ∧
    ((destroy (init desktopEnv (mkState {}) emptyDom).1
        (init desktopEnv (mkState {}) emptyDom).2).2.body = [] ∧
     (destroy (init desktopEnv (mkState {}) emptyDom).1
        (init desktopEnv (mkState {}) emptyDom).2).1.animationFrameId = none ∧
     (destroy (init desktopEnv (mkState {}) emptyDom).1
        (init desktopEnv (mkState {}) emptyDom).2).2.pendingFrames = [] ∧
     destroy inactiveSample emptyDom = (inactiveSample, emptyDom)) :=
  ⟨⟨by decide, by decide, by decide, by decide⟩,
   C5_destroy_cleanup desktopEnv {} emptyDom inactiveSample emptyDom
     (by decide) (by decide) (by decide) (by decide)⟩

theorem effPointer_good (ctx : CursorCtx)
    (hgood : ctx.styleAttached = true → ctx.hideDefaultCursor = true) (n : ElemNode) :
    effPointer ctx n = (n.origCursor == "pointer") := by
  unfold effPointer effectiveCursor
  cases ha : ctx.styleAttached
  · simp [ha]
  · simp [ha, hgood ha]

theorem cacheOK_cons (ctx : CursorCtx) (cache : List (ℕ × Bool)) (n : ElemNode)
    (rest : List ElemNode) (hok : CacheOK ctx cache (n :: rest))
    (hnotin : n.id ∉ rest.map ElemNode.id) :
    CacheOK ctx ((n.id, effPointer ctx n) :: cache) rest := by
  intro m hm b hb
  rw [cacheGet] at hb
  by_cases hid : m.id = n.id
  · exact absurd (hid ▸ List.mem_map_of_mem ElemNode.id hm) (hid ▸ hnotin)
  · rw [if_neg hid] at hb
    exact hok m (List.mem_cons_of_mem n hm) b hb

theorem hasPointerCursor_eq_any (ctx : CursorCtx) (ns : List ElemNode) :
    ∀ cache : List (ℕ × Bool), CacheOK ctx cache ns → (ns.map ElemNode.id).Nodup →
      (hasPointerCursor ctx cache ns).1 = ns.any (effPointer ctx) := by
  induction ns with
  | nil => intro cache _ _; rfl
  | cons n rest ih =>
    intro cache hok hnd
    rw [List.map_cons, List.nodup_cons] at hnd
    cases hc : cacheGet cache n.id with
    | none =>
      cases hp : effPointer ctx n with
      | true => simp [hasPointerCursor, hc, hp]
      | false =>
        have hok' := cacheOK_cons ctx cache n rest hok hnd.1
        rw [hp] at hok'
        simp only [hasPointerCursor, hc, hp, Bool.false_eq_true, if_false,
          List.any_cons, Bool.false_or]
        exact ih _ hok' hnd.2
    | some b =>
      have hb := hok n (List.mem_cons_self n rest) b hc
      cases hbv : b with
      | true =>
        rw [hbv] at hb
        simp [hasPointerCursor, hc, hbv, ← hb]
      | false =>
        rw [hbv] at hb
        have hok' : CacheOK ctx cache rest := fun m hm b' hb' =>
          hok m (List.mem_cons_of_mem n hm) b' hb'
        simp only [hasPointerCursor, hc, hbv, List.any_cons, ← hb, Bool.false_or]
        exact ih _ hok' hnd.2

theorem any_effPointer_eq (ctx : CursorCtx)
    (hgood : ctx.styleAttached = true → ctx.hideDefaultCursor = true) :
    ∀ ms : List ElemNode, ms.any (effPointer ctx) =
      ms.any (fun n => n.origCursor == "pointer") := by
  intro ms
  induction ms with
  | nil => rfl
  | cons m rest ih => rw [List.any_cons, List.any_cons, ih, effPointer_good ctx hgood m]

theorem isInteractive_eq_pure (ctx : CursorCtx) (c : Chain) (cache : List (ℕ × Bool))
    (hgood : ctx.styleAttached = true → ctx.hideDefaultCursor = true)
    (hok : CacheOK ctx cache (walkNodes c))
    (hnd : ((walkNodes c).map ElemNode.id).Nodup) :
    (isInteractiveElement ctx cache c).1 = pureInteractive c := by
  have hwalk : (hasPointerCursor ctx cache (walkNodes c)).1 =
      (walkNodes c).any (fun n => n.origCursor == "pointer") := by
    rw [hasPointerCursor_eq_any ctx (walkNodes c) cache hok hnd]
    exact any_effPointer_eq ctx hgood (walkNodes c)
  simp only [isInteractiveElement, pureInteractive, hwalk]
  cases hany : (walkNodes c).any (fun n => n.origCursor == "pointer") <;> simp [hany]

theorem pure_eq_spec (c : Chain) (hattr : c.self.onclickAttr = true → c.self.onclickProp = true) :
    pureInteractive c = interactiveSpec c := by
  rw [Bool.eq_iff_iff]
  simp only [pureInteractive, interactiveSpec, allNodes, List.any_cons, List.any_append,
    Bool.or_eq_true, Bool.and_eq_true, matchesInteractiveSelector]
  constructor
  · rintro (h | h) <;> tauto
  · intro h
    tauto

/-- C7: with a fresh cache and the suppression style not installed, the
classifier returns interactive exactly when the leaf is an anchor, a
button, carries `role="button"`, has a native click handler, is a
range/color/checkbox input, has an ancestor matching that selector set, or
the leaf or an ancestor below `document.body` has computed cursor
`pointer`; consequently a plain div with none of these is not interactive.
(`hattr` reflects that an element with an `onclick` attribute also exposes
a non-null `onclick` property in a real DOM.) -/
theorem C7_classifier_characterization (hide : Bool) (c : Chain)
    (hnd : ((walkNodes c).map ElemNode.id).Nodup)
    (hattr : c.self.onclickAttr = true → c.self.onclickProp = true) :
    (isInteractiveElement ⟨hide, false⟩ [] c).1 = interactiveSpec c := by
  rw [isInteractive_eq_pure ⟨hide, false⟩ c []
    (fun h => absurd h Bool.false_ne_true)
    (fun n _ b hb => by rw [show cacheGet [] n.id = none from rfl] at hb; exact absurd hb (by simp))
    hnd]
  exact pure_eq_spec c hattr

/-- Witness for C7: a plain div (not interactive) and a pointer-styled div
(interactive), both with fresh caches and no suppression. -/
theorem C7_classifier_characterization_witness :
    (((walkNodes plainDivChain).map ElemNode.id).Nodup ∧
      ((walkNodes pointerDivChain).map ElemNode.id).Nodup) ∧
    ((isInteractiveElement ⟨false, false⟩ [] plainDivChain).1 = interactiveSpec plainDivChain ∧
      (isInteractiveElement ⟨true, false⟩ [] pointerDivChain).1 = interactiveSpec pointerDivChain) ∧
    interactiveSpec plainDivChain = false ∧
    interactiveSpec pointerDivChain = true :=
  ⟨⟨by decide, by decide⟩,
   ⟨C7_classifier_characterization false plainDivChain (by decide) (by decide),
    C7_classifier_characterization true pointerDivChain (by decide) (by decide)⟩,
   by decide, by decide⟩

theorem updateOptions_toggle_on (env : Env) (s : AuraState) (dom : Dom)
    (hout : s.baseOptions.outlineMode = false)
    (hold : s.baseOptions.hideDefaultCursor = false)
    (hse : s.styleElement = none) :
    (updateOptions env (toggleHide true) s dom).1.pointerElementsCache = [] ∧
    (updateOptions env (toggleHide true) s dom).1.optionsBase.hideDefaultCursor = true ∧
    (updateOptions env (toggleHide true) s dom).1.styleElement = some dom.nextId ∧
    (updateOptions env (toggleHide true) s dom).2.headStyle = some dom.nextId := by
  simp only [updateOptions, toggleHide, hold, hout, hideDefaultCursorStep, hse,
    Option.getD_none, Option.getD_some, mergeOpt, appendFresh, removeAllOfClass,
    Option.isSome_none, Bool.false_and, Bool.false_eq_true, if_false, bne_self_eq_false,
    Bool.not_false, Bool.and_true, Bool.true_and, Bool.and_self, if_true]
  by_cases hcd : s.centerDot = none <;> simp [hcd]

theorem updateOptions_toggle_off (env : Env) (s : AuraState) (dom : Dom) (i : ℕ)
    (hold : s.baseOptions.hideDefaultCursor = true)
    (hse : s.styleElement = some i) (hhs : dom.headStyle = some i) :
    (updateOptions env (toggleHide false) s dom).1.pointerElementsCache = [] ∧
    (updateOptions env (toggleHide false) s dom).1.optionsBase.hideDefaultCursor = false ∧
    (updateOptions env (toggleHide false) s dom).1.styleElement = none ∧
    (updateOptions env (toggleHide false) s dom).2.headStyle = none := by
  simp only [updateOptions, toggleHide, hold, showDefaultCursorStep, hse, hhs,
    Option.getD_none, Option.getD_some, mergeOpt, appendFresh, removeAllOfClass,
    removeElem, attached, Option.isSome_none, Bool.false_and, Bool.false_eq_true,
    if_false, Bool.and_self, if_true, beq_self_eq_true]
  rcases hcd : s.centerDot with _ | j
  · simp [hcd]
  · simp [hcd, apply_ite]

/-- C8: toggling the hide-default-cursor suppression — in either direction,
via `updateOptions` from a clean epoch (suppression state in sync with the
flag), outside outline mode, with a cache consistent for the queried
chain — resets the pointer cache in full, and re-querying the element's
interactivity afterwards returns exactly the classification from before the
toggle. -/
theorem C8_suppression_toggle (env : Env) (s : AuraState) (dom : Dom) (c : Chain)
    (hsync : s.optionsBase = s.baseOptions)
    (hout : s.baseOptions.outlineMode = false)
    (hnd : ((walkNodes c).map ElemNode.id).Nodup)
    (hok : CacheOK (ctxOf s dom) s.pointerElementsCache (walkNodes c))
    (hclean :
      (s.baseOptions.hideDefaultCursor = false ∧ s.styleElement = none) ∨
      (s.baseOptions.hideDefaultCursor = true ∧
        ∃ i, s.styleElement = some i ∧ dom.headStyle = some i)) :
    (isInteractiveElement
        (ctxOf (updateOptions env (toggleHide (!s.baseOptions.hideDefaultCursor)) s dom).1
          (updateOptions env (toggleHide (!s.baseOptions.hideDefaultCursor)) s dom).2)
        (updateOptions env (toggleHide (!s.baseOptions.hideDefaultCursor)) s dom).1.pointerElementsCache
        c).1 =
      (isInteractiveElement (ctxOf s dom) s.pointerElementsCache c).1 ∧
    (updateOptions env (toggleHide (!s.baseOptions.hideDefaultCursor)) s dom).1.pointerElementsCache
      = [] := by
  have hemptyOK : ∀ ctx : CursorCtx, CacheOK ctx [] (walkNodes c) := by
    intro ctx n _ b hb
    rw [show cacheGet [] n.id = none from rfl] at hb
    exact absurd hb (by simp)
  rcases hclean with ⟨hold, hse⟩ | ⟨hold, i, hse, hhs⟩
  · obtain ⟨h1, h2, h3, h4⟩ := updateOptions_toggle_on env s dom hout hold hse
    rw [hold]
    simp only [Bool.not_false]
    have hctxa : ctxOf (updateOptions env (toggleHide true) s dom).1
        (updateOptions env (toggleHide true) s dom).2 = ⟨true, true⟩ := by
      simp [ctxOf, h2, h3, h4]
    have hctxb : ctxOf s dom = ⟨false, false⟩ := by
      simp [ctxOf, hsync, hold, hse]
    rw [hctxa, hctxb, h1]
    rw [hctxb] at hok
    refine ⟨?_, rfl⟩
    rw [isInteractive_eq_pure ⟨true, true⟩ c [] (fun _ => rfl) (hemptyOK _) hnd,
      isInteractive_eq_pure ⟨false, false⟩ c s.pointerElementsCache
        (fun h => absurd h Bool.false_ne_true) hok hnd]
  · obtain ⟨h1, h2, h3, h4⟩ := updateOptions_toggle_off env s dom i hold hse hhs
    rw [hold]
    simp only [Bool.not_true]
    have hctxa : ctxOf (updateOptions env (toggleHide false) s dom).1
        (updateOptions env (toggleHide false) s dom).2 = ⟨false, false⟩ := by
      simp [ctxOf, h2, h3, h4]
    have hctxb : ctxOf s dom = ⟨true, true⟩ := by
      simp [ctxOf, hsync, hold, hse, hhs]
    rw [hctxa, hctxb, h1]
    rw [hctxb] at hok
    refine ⟨?_, rfl⟩
    rw [isInteractive_eq_pure ⟨false, false⟩ c []
        (fun h => absurd h Bool.false_ne_true) (hemptyOK _) hnd,
      isInteractive_eq_pure ⟨true, true⟩ c s.pointerElementsCache (fun _ => rfl) hok hnd]

/-- Witness for C8: toggling suppression on over a pointer-styled div, from
a fresh default engine on an empty page. -/
theorem C8_suppression_toggle_witness :
    ((mkState {}).optionsBase = (mkState {}).baseOptions ∧
      (mkState {}).baseOptions.outlineMode = false ∧
      ((walkNodes pointerDivChain).map ElemNode.id).Nodup ∧
      (mkState {}).baseOptions.hideDefaultCursor = false ∧
      (mkState {}).styleElement = none) ∧
    ((isInteractiveElement
        (ctxOf
          (updateOptions desktopEnv
            (toggleHide (!(mkState {}).baseOptions.hideDefaultCursor)) (mkState {}) emptyDom).1
          (updateOptions desktopEnv
            (toggleHide (!(mkState {}).baseOptions.hideDefaultCursor)) (mkState {}) emptyDom).2)
        (updateOptions desktopEnv
          (toggleHide (!(mkState {}).baseOptions.hideDefaultCursor)) (mkState {}) emptyDom).1.pointerElementsCache
        pointerDivChain).1 =
      (isInteractiveElement (ctxOf (mkState {}) emptyDom)
        (mkState {}).pointerElementsCache pointerDivChain).1 ∧
     (updateOptions desktopEnv
        (toggleHide (!(mkState {}).baseOptions.hideDefaultCursor)) (mkState {}) emptyDom).1.pointerElementsCache
      = []) :=
  ⟨⟨rfl, rfl, by decide, rfl, rfl⟩,
   C8_suppression_toggle desktopEnv (mkState {}) emptyDom pointerDivChain rfl rfl (by decide)
     (fun n _ b hb => by simp [mkState, cacheGet] at hb)
     (Or.inl ⟨rfl, rfl⟩)⟩

/-- C9 fails as stated: an `updateOptions` that toggles `hideDefaultCursor`
on while the engine is inactive (freshly constructed, never started, on an
empty page) installs the global cursor-suppression style into the head AND
creates a center-dot layer in the document — the flag-change block of
`updateOptions` is not gated on `isActive`. -/
theorem C9_counterexample :
    (mkState {}).isActive = false ∧
    emptyDom.headStyle = none ∧
    emptyDom.body = [] ∧
    (updateOptions desktopEnv { hideDefaultCursor := some true } (mkState {}) emptyDom).2.headStyle
      = some 0 ∧
    (updateOptions desktopEnv { hideDefaultCursor := some true } (mkState {}) emptyDom).2.body
      = [(1, LayerClass.auraCursorCenterDot)] :=
  ⟨by decide, rfl, rfl, by decide, by decide⟩

/-- C9 amended: an `updateOptions` call while the engine is inactive that
does not change the hide-default-cursor flag is tolerated idempotently: it
only merges the provided fields into the stored configuration and performs
no host mutation — the document (layers, suppression style, pending frames)
is returned untouched and every layer/style handle of the instance is
unchanged. -/
theorem C9_inactive_reconfigure (env : Env) (p : AuraCursorOptions) (s : AuraState) (dom : Dom)
    (hin : s.isActive = false)
    (hno : p.hideDefaultCursor = none ∨
      p.hideDefaultCursor = some s.baseOptions.hideDefaultCursor) :
    (updateOptions env p s dom).2 = dom ∧
    (updateOptions env p s dom).1.cursorElement = s.cursorElement ∧
    (updateOptions env p s dom).1.cursorDot = s.cursorDot ∧
    (updateOptions env p s dom).1.centerDot = s.centerDot ∧
    (updateOptions env p s dom).1.styleElement = s.styleElement ∧
    (updateOptions env p s dom).1.pointerElementsCache = s.pointerElementsCache ∧
    (updateOptions env p s dom).1.baseOptions = mergeBaseOptions p s.baseOptions ∧
    (updateOptions env p s dom).1.optionsBase = mergeBaseOptions p s.baseOptions ∧
    (updateOptions env p s dom).1.hoverEffect =
      (match p.hoverEffect with
        | some he => some he
        | none => s.hoverEffect) := by
  rcases hhe : p.hoverEffect with _ | he <;>
    rcases hom : p.outlineMode with _ | om <;>
      rcases hno with hno | hno <;>
        simp [updateOptions, mergeBaseOptions, mergeOpt, hhe, hom, hno, hin,
          bne_self_eq_false]

/-- Witness for the amended C9: reconfiguring size and color of a freshly
constructed (inactive) engine on an empty page. -/
theorem C9_inactive_reconfigure_witness :
    ((mkState {}).isActive = false ∧
      (AuraCursorOptions.mk (some 40) (some "#ff0000") none none none none none none none
        none none none none none).hideDefaultCursor = none) ∧
    ((updateOptions desktopEnv
        (AuraCursorOptions.mk (some 40) (some "#ff0000") none none none none none none none
          none none none none none) (mkState {}) emptyDom).2 = emptyDom ∧
     (updateOptions desktopEnv
        (AuraCursorOptions.mk (some 40) (some "#ff0000") none none none none none none none
          none none none none none) (mkState {}) emptyDom).1.cursorElement
        = (mkState {}).cursorElement ∧
     (updateOptions desktopEnv
        (AuraCursorOptions.mk (some 40) (some "#ff0000") none none none none none none none
          none none none none none) (mkState {}) emptyDom).1.cursorDot
        = (mkState {}).cursorDot ∧
     (updateOptions desktopEnv
        (AuraCursorOptions.mk (some 40) (some "#ff0000") none none none none none none none
          none none none none none) (mkState {}) emptyDom).1.centerDot
        = (mkState {}).centerDot ∧
     (updateOptions desktopEnv
        (AuraCursorOptions.mk (some 40) (some "#ff0000") none none none none none none none
          none none none none none) (mkState {}) emptyDom).1.styleElement
        = (mkState {}).styleElement ∧
     (updateOptions desktopEnv
        (AuraCursorOptions.mk (some 40) (some "#ff0000") none none none none none none none
          none none none none none) (mkState {}) emptyDom).1.pointerElementsCache
        = (mkState {}).pointerElementsCache ∧
     (updateOptions desktopEnv
        (AuraCursorOptions.mk (some 40) (some "#ff0000") none none none none none none none
          none none none none none) (mkState {}) emptyDom).1.baseOptions
        = mergeBaseOptions
            (AuraCursorOptions.mk (some 40) (some "#ff0000") none none none none none none none
              none none none none none) (mkState {}).baseOptions ∧
     (updateOptions desktopEnv
        (AuraCursorOptions.mk (some 40) (some "#ff0000") none none none none none none none
          none none none none none) (mkState {}) emptyDom).1.optionsBase
        = mergeBaseOptions
            (AuraCursorOptions.mk (some 40) (some "#ff0000") none none none none none none none
              none none none none none) (mkState {}).baseOptions ∧
     (updateOptions desktopEnv
        (AuraCursorOptions.mk (some 40) (some "#ff0000") none none none none none none none
          none none none none none) (mkState {}) emptyDom).1.hoverEffect
        = (match (AuraCursorOptions.mk (some 40) (some "#ff0000") none none none none none none
              none none none none none none).hoverEffect with
            | some he => some he
            | none => (mkState {}).hoverEffect)) :=
  ⟨⟨rfl, rfl⟩,
   C9_inactive_reconfigure desktopEnv
     (AuraCursorOptions.mk (some 40) (some "#ff0000") none none none none none none none
       none none none none none) (mkState {}) emptyDom rfl (Or.inl rfl)⟩

end Aura
